import Mathlib

/-!
Shallow embedding of the docker-tester library (src/lib.rs and
src/db_tester.rs).  External effects (the docker CLI, the Postgres
server, sqlx and the migration engine) are modelled as explicit
inputs: each invocation of an external command is represented by the
`CmdOutput` that command produces, and each database connection
attempt by a `ConnectOutcome`.  Rust control flow is made explicit:
functions that can return `Err` or panic produce an `RsOutcome`.
-/

/-- Result of running an external command (std::process::Output):
exit status, stdout, stderr, already decoded as UTF-8 strings. -/
structure CmdOutput where
  success : Bool
  stdout : String
  stderr : String
deriving DecidableEq

/-- Outcome of a Rust call: a returned value, a returned `Err`
(anyhow error message), or a panic (assert! / expect / unwrap). -/
inductive RsOutcome (α : Type) where
  | ok : α → RsOutcome α
  | err : String → RsOutcome α
  | panic : String → RsOutcome α
deriving DecidableEq

/-- ASCII whitespace test; models char::is_whitespace on the
alphabet the docker CLI actually emits. -/
def isRustWs (c : Char) : Bool :=
  c == ' ' || c == '\t' || c == '\n' || c == '\r'

def trimChars (cs : List Char) : List Char :=
  ((cs.dropWhile isRustWs).reverse.dropWhile isRustWs).reverse

/-- Models str::trim as applied to command stdout. -/
def rustTrim (s : String) : String := String.mk (trimChars s.data)

def singleQuote : Char := Char.ofNat 39

/-- Models str::trim_matches with a single-quote pattern
(lib.rs line 148). -/
def trimMatchesQuote (s : String) : String :=
  String.mk (((s.data.dropWhile (fun c => c == singleQuote)).reverse.dropWhile
    (fun c => c == singleQuote)).reverse)

/-- Models str::parse::<u16> (FromStr for u16): an optional leading
plus sign, then at least one ASCII digit, and the value must fit in
16 bits; anything else is a parse error (`none`). -/
def parseU16 (s : String) : Option Nat :=
  let cs := match s.data with
    | '+' :: rest => rest
    | cs => cs
  if cs.isEmpty then none
  else if cs.all (fun c => c.isDigit) then
    let n := cs.foldl (fun acc c => acc * 10 + (c.toNat - 48)) 0
    if n ≤ 65535 then some n else none
  else none

/-!
Model of serde_json deserialization of `Vec<NetworkSettings>`
(lib.rs line 148 and the derived Deserialize impl of lines 161-168).
The docker port-mapping template emits a JSON array of flat objects
whose values are JSON strings, so the parser model covers exactly
that grammar (arrays of objects with string-valued members, with the
standard whitespace and simple string escapes).
-/

def braceOpen : Char := Char.ofNat 123

def braceClose : Char := Char.ofNat 125

def skipWs : List Char → List Char
  | [] => []
  | c :: cs => if isRustWs c then skipWs cs else c :: cs

/-- JSON string escapes accepted by the model. -/
def escChar (c : Char) : Option Char :=
  if c = '"' then some '"'
  else if c = '\\' then some '\\'
  else if c = '/' then some '/'
  else if c = 'n' then some '\n'
  else if c = 't' then some '\t'
  else if c = 'r' then some '\r'
  else none

/-- Body of a JSON string, after the opening quote: returns the
decoded characters and the input remaining after the closing quote. -/
def parseStringBody : List Char → Except String (List Char × List Char)
  | [] => .error "EOF while parsing a string"
  | '"' :: rest => .ok ([], rest)
  | '\\' :: e :: rest =>
    match escChar e with
    | some c =>
      match parseStringBody rest with
      | .ok (body, rem) => .ok (c :: body, rem)
      | .error m => .error m
    | none => .error "invalid escape"
  | '\\' :: [] => .error "EOF while parsing a string"
  | c :: rest =>
    match parseStringBody rest with
    | .ok (body, rem) => .ok (c :: body, rem)
    | .error m => .error m

def parseJsonString : List Char → Except String (String × List Char)
  | '"' :: rest =>
    (match parseStringBody rest with
     | .ok (body, rem) => .ok (String.mk body, rem)
     | .error m => .error m)
  | _ => .error "expected string"

/-- One `"key": "value"` member of an object. -/
def parseMember (cs : List Char) : Except String ((String × String) × List Char) :=
  match parseJsonString (skipWs cs) with
  | .error m => .error m
  | .ok (key, rest) =>
    match skipWs rest with
    | ':' :: rest2 =>
      (match parseJsonString (skipWs rest2) with
       | .error m => .error m
       | .ok (val, rest3) => .ok ((key, val), rest3))
    | _ => .error "expected colon"

/-- Members of a nonempty object, after its opening brace.  The fuel
only bounds the number of members and always suffices when it exceeds
the input length, since each member consumes input. -/
def parseObjRest : Nat → List Char → List (String × String) →
    Except String (List (String × String) × List Char)
  | 0, _, _ => .error "model fuel exhausted"
  | fuel + 1, cs, acc =>
    match parseMember cs with
    | .error m => .error m
    | .ok (kv, rest) =>
      match skipWs rest with
      | ',' :: rest2 => parseObjRest fuel rest2 (acc ++ [kv])
      | c :: rest2 =>
        if c = braceClose then .ok (acc ++ [kv], rest2)
        else .error "expected comma or end of object"
      | [] => .error "EOF while parsing an object"

def parseObject (fuel : Nat) (cs : List Char) :
    Except String (List (String × String) × List Char) :=
  match skipWs cs with
  | c :: rest =>
    if c = braceOpen then
      match skipWs rest with
      | d :: rest2 =>
        if d = braceClose then .ok ([], rest2)
        else parseObjRest fuel (d :: rest2) []
      | [] => .error "EOF while parsing an object"
    else .error "expected object"
  | [] => .error "expected object"

/-- Elements of a nonempty array of objects, after its opening
bracket. -/
def parseElems : Nat → List Char → List (List (String × String)) →
    Except String (List (List (String × String)) × List Char)
  | 0, _, _ => .error "model fuel exhausted"
  | fuel + 1, cs, acc =>
    match parseObject (fuel + 1) cs with
    | .error m => .error m
    | .ok (obj, rest) =>
      match skipWs rest with
      | ',' :: rest2 => parseElems fuel rest2 (acc ++ [obj])
      | ']' :: rest2 => .ok (acc ++ [obj], rest2)
      | _ => .error "expected comma or end of array"

/-- The top-level JSON array of flat objects. -/
def parseSettingsArray (s : String) :
    Except String (List (List (String × String))) :=
  match skipWs s.data with
  | '[' :: rest =>
    (match skipWs rest with
     | ']' :: rest2 =>
       if (skipWs rest2).isEmpty then .ok [] else .error "trailing characters"
     | rest2 =>
       match parseElems (s.data.length + 1) rest2 [] with
       | .error m => .error m
       | .ok (objs, rest3) =>
         if (skipWs rest3).isEmpty then .ok objs
         else .error "trailing characters")
  | _ => .error "expected array"

/-- NetworkSettings of lib.rs lines 161-168: two String fields with
serde aliases HostIp / HostPort; Default gives empty strings. -/
structure NetworkSettings where
  host_ip : String
  host_port : String
deriving DecidableEq

/-- One pass over an object's members, as the derived Deserialize
impl performs it: a member named `host_ip` or its alias `HostIp`
fills the first slot, `host_port` / `HostPort` the second, a second
member for a filled slot is a duplicate-field error, unknown members
are ignored, and a slot still empty at the end is a
missing-field error. -/
def decodeFields : List (String × String) → Option String → Option String →
    Except String NetworkSettings
  | [], some ip, some port => .ok (NetworkSettings.mk ip port)
  | [], none, _ => .error "missing field host_ip"
  | [], some _, none => .error "missing field host_port"
  | (k, v) :: rest, ip, port =>
    if k = "host_ip" ∨ k = "HostIp" then
      match ip with
      | some _ => .error "duplicate field host_ip"
      | none => decodeFields rest (some v) port
    else if k = "host_port" ∨ k = "HostPort" then
      match port with
      | some _ => .error "duplicate field host_port"
      | none => decodeFields rest ip (some v)
    else decodeFields rest ip port

def decodeNetworkSettings (fields : List (String × String)) :
    Except String NetworkSettings :=
  decodeFields fields none none

def decodeSettingsList : List (List (String × String)) →
    Except String (List NetworkSettings)
  | [] => .ok []
  | f :: rest =>
    match decodeNetworkSettings f with
    | .error m => .error m
    | .ok ns =>
      match decodeSettingsList rest with
      | .error m => .error m
      | .ok tail => .ok (ns :: tail)

/-- serde_json::from_str::<Vec<NetworkSettings>> on the prepared
stdout string. -/
def deserializeSettings (s : String) : Except String (List NetworkSettings) :=
  match parseSettingsArray s with
  | .error m => .error m
  | .ok objs => decodeSettingsList objs

/-- The stdout preparation of lib.rs line 148:
`json_string.trim().trim_matches(single quote)`. -/
def prepareStdout (s : String) : String := trimMatchesQuote (rustTrim s)

/-- Lines 149-158 of lib.rs: the assert! that the parsed list is
nonempty (a panic when it is empty), then `NetworkSettings::default()`
overwritten from the first element. -/
def settingsFromList (id : String) (datas : List NetworkSettings) :
    RsOutcome NetworkSettings :=
  if 1 ≤ datas.length then
    let ns := match datas.head? with
      | some first => NetworkSettings.mk first.host_ip first.host_port
      | none => NetworkSettings.mk "" ""
    .ok ns
  else .panic ("The container[" ++ id ++ "] cannnot find NetworkSettings.Ports")

/-- extract_ip_and_port of lib.rs lines 133-159, as a function of the
`docker inspect` port-mapping output.  A non-zero exit returns the
command's stderr; a deserialization failure is propagated by `?`;
an empty binding list panics via assert!. -/
def extract_ip_and_port (out : CmdOutput) (id : String) : RsOutcome NetworkSettings :=
  if out.success = false then .err out.stderr
  else
    match deserializeSettings (prepareStdout out.stdout) with
    | .error e => .err e
    | .ok datas => settingsFromList id datas

/-!
The two bounded readiness loops.  A probe is indexed by the attempt
number (1-based); the outside world determines what each attempt
observes.  A trace records how many times the probe ran, which sleeps
were performed (in seconds, in order), and the loop's result.
-/

/-- Trace of one readiness loop: probe invocation count, the
performed sleep durations in seconds, and the outcome. -/
structure LoopTrace where
  invocations : Nat
  sleeps : List Nat
  result : Except String Unit

/-- The error built at lib.rs line 94. -/
def statusErrMsg (image : String) : String :=
  "cannot start the image[" ++ image ++ "] container"

/-- The `for i in 1..=10` container-status loop of lib.rs lines
73-100, with `i` the current attempt and `rem` the attempts left in
the range.  Each iteration inspects the status (stdout per attempt is
`status i`), trims it, compares with "running" (break), otherwise
returns the error at attempt 10 or sleeps `i` seconds. -/
def statusLoopAux (status : Nat → String) (image : String) : Nat → Nat → LoopTrace
  | _, 0 => LoopTrace.mk 0 [] (.ok ())
  | i, rem + 1 =>
    if rustTrim (status i) = "running" then LoopTrace.mk 1 [] (.ok ())
    else if i = 10 then LoopTrace.mk 1 [] (.error (statusErrMsg image))
    else
      let t := statusLoopAux status image (i + 1) rem
      LoopTrace.mk (t.invocations + 1) (i :: t.sleeps) t.result

def statusLoop (status : Nat → String) (image : String) : LoopTrace :=
  statusLoopAux status image 1 10

/-- Outcome of one PgConnection::connect attempt in
TestPostgres::new: a connection (whose close() may itself fail, which
the `?` at db_tester.rs line 45 propagates) or a connection error. -/
inductive ConnectOutcome where
  | ok : Option String → ConnectOutcome
  | err : String → ConnectOutcome

/-- The `for i in 1..=10` connection loop of db_tester.rs lines
42-58: on Ok the connection is closed (propagating a close error) and
the loop breaks; on Err the error itself is returned at attempt 10,
otherwise the thread sleeps `i` seconds. -/
def connectLoopAux (connect : Nat → ConnectOutcome) : Nat → Nat → LoopTrace
  | _, 0 => LoopTrace.mk 0 [] (.ok ())
  | i, rem + 1 =>
    match connect i with
    | .ok closeErr =>
      (match closeErr with
       | some e => LoopTrace.mk 1 [] (.error e)
       | none => LoopTrace.mk 1 [] (.ok ()))
    | .err e =>
      if i = 10 then LoopTrace.mk 1 [] (.error e)
      else
        let t := connectLoopAux connect (i + 1) rem
        LoopTrace.mk (t.invocations + 1) (i :: t.sleeps) t.result

def connectLoop (connect : Nat → ConnectOutcome) : LoopTrace :=
  connectLoopAux connect 1 10

/-- Container of lib.rs lines 33-37. -/
structure Container where
  id : String
  host : String
  port : Nat
deriving DecidableEq

/-- start_container of lib.rs lines 56-107, as a function of the
external command outputs: the `docker run` output, the port-mapping
inspect output and the per-attempt status-inspect stdout.  The id is
the first 12 characters of the run stdout (a panic when the stdout is
shorter, as Rust slicing is); the endpoint is resolved before the
status loop; the final port conversion `parse::<u16>().unwrap()`
panics on an unparseable host port. -/
def start_container (runOut inspectOut : CmdOutput) (status : Nat → String)
    (image : String) : RsOutcome Container :=
  if runOut.success = false then .err runOut.stderr
  else if runOut.stdout.data.length < 12 then
    .panic "byte index 12 is out of bounds"
  else
    let id := String.mk (runOut.stdout.data.take 12)
    match extract_ip_and_port inspectOut id with
    | .err e => .err e
    | .panic m => .panic m
    | .ok ns =>
      match (statusLoop status image).result with
      | .error e => .err e
      | .ok _ =>
        match parseU16 ns.host_port with
        | none => .panic "called Result::unwrap on an Err value: ParseIntError"
        | some p => .ok (Container.mk id ns.host_ip p)

/-- Trace of stop_container: its returned value and whether the
`docker rm` invocation was attempted at all. -/
structure StopTrace where
  result : Except String Unit
  rmInvoked : Bool

/-- Argument vector of the `docker stop` invocation
(lib.rs line 117). -/
def stopCmdArgs (id : String) : List String := ["stop", id]

/-- Argument vector of the `docker rm` invocation
(lib.rs lines 122-126): remove with volume cleanup. -/
def rmCmdArgs (id : String) : List String := ["rm", id, "-v"]

/-- stop_container of lib.rs lines 116-131 as a function of the two
command outputs: `docker stop` first; a non-zero exit returns its
stderr and `docker rm -v` is never run; otherwise `docker rm -v`
runs, a non-zero exit returns its stderr, and success returns unit. -/
def stop_container (stopOut rmOut : CmdOutput) : StopTrace :=
  if stopOut.success = false then StopTrace.mk (.error stopOut.stderr) false
  else if rmOut.success = false then StopTrace.mk (.error rmOut.stderr) true
  else StopTrace.mk (.ok ()) true

/-- TestPostgres of db_tester.rs lines 8-15. -/
structure TestPostgres where
  host : String
  port : Nat
  user : String
  password : String
  dbname : String
  container_id : String
deriving DecidableEq

/-- server_url of db_tester.rs lines 95-104: the password segment is
present exactly when the password is nonempty; the database name
never appears. -/
def TestPostgres.server_url (t : TestPostgres) : String :=
  if t.password = "" then
    "postgres://" ++ t.user ++ "@" ++ t.host ++ ":" ++ toString t.port
  else
    "postgres://" ++ t.user ++ ":" ++ t.password ++ "@" ++ t.host ++ ":" ++
      toString t.port

/-- url of db_tester.rs lines 106-108. -/
def TestPostgres.url (t : TestPostgres) : String :=
  t.server_url ++ "/" ++ t.dbname

/-- Trace of TestPostgres::new: its outcome and how many times the
fixture's container was torn down (stop_container invocations on it)
during the call. -/
structure NewResult where
  result : RsOutcome TestPostgres
  teardowns : Nat

/-- TestPostgres::new of db_tester.rs lines 19-84 as a function of
the collaborators' behaviour: the start_container outcome, the
per-attempt connection outcomes of the readiness loop, and the
results of the post-readiness administrative connection, CREATE
DATABASE, pool connection, migrator construction and migration run.
The generated user, password and dbname (uuid-based in the source)
are inputs.  Rust drop semantics are explicit: once the TestPostgres
value exists (line 34), every exit path that does not return it —
the early `return Err` in the loop and the panicking `expect`s —
drops it, and `impl Drop for TestPostgres` (lines 111-116) then calls
stop_container on its container exactly once. -/
def testPostgresNew (scRes : RsOutcome Container)
    (connect : Nat → ConnectOutcome)
    (adminConnect createDb poolConnect migratorNew migratorRun : Except String Unit)
    (user password dbname : String) : NewResult :=
  match scRes with
  | .err e => NewResult.mk (.panic ("Failed to start Postgres container: " ++ e)) 0
  | .panic m => NewResult.mk (.panic m) 0
  | .ok container =>
    let tp := TestPostgres.mk container.host container.port user password dbname
      container.id
    match (connectLoop connect).result with
    | .error e => NewResult.mk (.err e) 1
    | .ok _ =>
      match adminConnect with
      | .error e => NewResult.mk (.panic ("Cannot connect to Postgres: " ++ e)) 1
      | .ok _ =>
        match createDb with
        | .error e => NewResult.mk (.panic ("Failed to create database: " ++ e)) 1
        | .ok _ =>
          match poolConnect with
          | .error e =>
            NewResult.mk (.panic ("Failed to connect to Postgres with db: " ++ e)) 1
          | .ok _ =>
            match migratorNew with
            | .error e =>
              NewResult.mk (.panic ("Failed to migrate the database: " ++ e)) 1
            | .ok _ =>
              match migratorRun with
              | .error e =>
                NewResult.mk (.panic ("Failed to migrate the database: " ++ e)) 1
              | .ok _ => NewResult.mk (.ok tp) 0

/-!
Characterizations of the two readiness loops, proved by induction on
the remaining attempts.
-/

theorem statusLoopAux_never (status : Nat → String) (image : String)
    (h : ∀ i, 1 ≤ i → i ≤ 10 → rustTrim (status i) ≠ "running") :
    ∀ rem i, i + rem = 11 → 1 ≤ i → 1 ≤ rem →
      statusLoopAux status image i rem =
        LoopTrace.mk rem (List.range' i (rem - 1)) (.error (statusErrMsg image)) := by
  intro rem
  induction rem with
  | zero => intro i _ _ h0; omega
  | succ r ih =>
    intro i hsum hi _
    have hne := h i hi (by omega)
    by_cases h10 : i = 10
    · subst h10
      have hr : r = 0 := by omega
      subst hr
      simp [statusLoopAux, hne]
    · have hr1 : 1 ≤ r := by omega
      have hrange : List.range' i r = i :: List.range' (i + 1) (r - 1) := by
        conv_lhs => rw [show r = (r - 1) + 1 by omega]
        rw [List.range'_succ]
      simp only [statusLoopAux, if_neg hne, if_neg h10,
        ih (i + 1) (by omega) (by omega) hr1]
      simp [hrange]

theorem statusLoop_never (status : Nat → String) (image : String)
    (h : ∀ i, 1 ≤ i → i ≤ 10 → rustTrim (status i) ≠ "running") :
    statusLoop status image =
      LoopTrace.mk 10 (List.range' 1 9) (.error (statusErrMsg image)) :=
  statusLoopAux_never status image h 10 1 rfl le_rfl (by omega)

theorem statusLoopAux_success (status : Nat → String) (image : String) (k : Nat)
    (hk10 : k ≤ 10) (hrun : rustTrim (status k) = "running") :
    ∀ rem i, i + rem = 11 → 1 ≤ i → i ≤ k →
      (∀ j, i ≤ j → j < k → rustTrim (status j) ≠ "running") →
      statusLoopAux status image i rem =
        LoopTrace.mk (k - i + 1) (List.range' i (k - i)) (.ok ()) := by
  intro rem
  induction rem with
  | zero => intro i hsum _ hik _; omega
  | succ r ih =>
    intro i hsum hi hik hbef
    by_cases hik' : i = k
    · subst hik'
      simp [statusLoopAux, hrun]
    · have hlt : i < k := lt_of_le_of_ne hik hik'
      have hne := hbef i le_rfl hlt
      have h10 : i ≠ 10 := by omega
      have hrange : List.range' i (k - i) = i :: List.range' (i + 1) (k - (i + 1)) := by
        conv_lhs => rw [show k - i = (k - (i + 1)) + 1 by omega]
        rw [List.range'_succ]
      simp only [statusLoopAux, if_neg hne, if_neg h10,
        ih (i + 1) (by omega) (by omega) (by omega)
          (fun j hj1 hj2 => hbef j (by omega) hj2)]
      simp [hrange]
      omega

theorem statusLoop_success (status : Nat → String) (image : String) (k : Nat)
    (hk1 : 1 ≤ k) (hk10 : k ≤ 10) (hrun : rustTrim (status k) = "running")
    (hbef : ∀ j, 1 ≤ j → j < k → rustTrim (status j) ≠ "running") :
    statusLoop status image =
      LoopTrace.mk k (List.range' 1 (k - 1)) (.ok ()) := by
  have := statusLoopAux_success status image k hk10 hrun 10 1 rfl le_rfl hk1 hbef
  rw [statusLoop, this]
  congr 1
  omega

theorem connectLoopAux_never (connect : Nat → ConnectOutcome) (errOf : Nat → String)
    (h : ∀ i, 1 ≤ i → i ≤ 10 → connect i = .err (errOf i)) :
    ∀ rem i, i + rem = 11 → 1 ≤ i → 1 ≤ rem →
      connectLoopAux connect i rem =
        LoopTrace.mk rem (List.range' i (rem - 1)) (.error (errOf 10)) := by
  intro rem
  induction rem with
  | zero => intro i _ _ h0; omega
  | succ r ih =>
    intro i hsum hi _
    have herr := h i hi (by omega)
    by_cases h10 : i = 10
    · subst h10
      have hr : r = 0 := by omega
      subst hr
      simp [connectLoopAux, herr]
    · have hr1 : 1 ≤ r := by omega
      have hrange : List.range' i r = i :: List.range' (i + 1) (r - 1) := by
        conv_lhs => rw [show r = (r - 1) + 1 by omega]
        rw [List.range'_succ]
      simp only [connectLoopAux, herr, if_neg h10,
        ih (i + 1) (by omega) (by omega) hr1]
      simp [hrange]

theorem connectLoop_never (connect : Nat → ConnectOutcome) (errOf : Nat → String)
    (h : ∀ i, 1 ≤ i → i ≤ 10 → connect i = .err (errOf i)) :
    connectLoop connect =
      LoopTrace.mk 10 (List.range' 1 9) (.error (errOf 10)) :=
  connectLoopAux_never connect errOf h 10 1 rfl le_rfl (by omega)

theorem connectLoopAux_success (connect : Nat → ConnectOutcome) (k : Nat)
    (closeErr : Option String) (hk10 : k ≤ 10) (hconn : connect k = .ok closeErr) :
    ∀ rem i, i + rem = 11 → 1 ≤ i → i ≤ k →
      (∀ j, i ≤ j → j < k → ∃ e, connect j = .err e) →
      connectLoopAux connect i rem =
        LoopTrace.mk (k - i + 1) (List.range' i (k - i))
          (match closeErr with
           | some e => .error e
           | none => .ok ()) := by
  intro rem
  induction rem with
  | zero => intro i hsum _ hik _; omega
  | succ r ih =>
    intro i hsum hi hik hbef
    by_cases hik' : i = k
    · subst hik'
      cases closeErr with
      | some e => simp [connectLoopAux, hconn]
      | none => simp [connectLoopAux, hconn]
    · have hlt : i < k := lt_of_le_of_ne hik hik'
      obtain ⟨e, he⟩ := hbef i le_rfl hlt
      have h10 : i ≠ 10 := by omega
      have hrange : List.range' i (k - i) = i :: List.range' (i + 1) (k - (i + 1)) := by
        conv_lhs => rw [show k - i = (k - (i + 1)) + 1 by omega]
        rw [List.range'_succ]
      simp only [connectLoopAux, he, if_neg h10,
        ih (i + 1) (by omega) (by omega) (by omega)
          (fun j hj1 hj2 => hbef j (by omega) hj2)]
      simp [hrange]
      omega

theorem connectLoop_success (connect : Nat → ConnectOutcome) (k : Nat)
    (closeErr : Option String) (hk1 : 1 ≤ k) (hk10 : k ≤ 10)
    (hconn : connect k = .ok closeErr)
    (hbef : ∀ j, 1 ≤ j → j < k → ∃ e, connect j = .err e) :
    connectLoop connect =
      LoopTrace.mk k (List.range' 1 (k - 1))
        (match closeErr with
         | some e => .error e
         | none => .ok ()) := by
  have h2 := connectLoopAux_success connect k closeErr hk10 hconn 10 1 rfl le_rfl hk1 hbef
  rw [connectLoop, h2]
  have hk : k - 1 + 1 = k := by omega
  cases closeErr with
  | some e => simp [hk]
  | none => simp [hk]

/-!
Facts about the decoder and the port parser used by several claims.
-/

theorem decodeFields_missing_ip :
    ∀ (fields : List (String × String)) (portAcc : Option String),
      (∀ kv ∈ fields, kv.1 ≠ "host_ip" ∧ kv.1 ≠ "HostIp") →
      ∃ msg, decodeFields fields none portAcc = .error msg := by
  intro fields
  induction fields with
  | nil =>
    intro portAcc _
    cases portAcc with
    | some _ => exact ⟨_, rfl⟩
    | none => exact ⟨_, rfl⟩
  | cons kv rest ih =>
    intro portAcc h
    obtain ⟨k, v⟩ := kv
    have hkv := h (k, v) (by simp)
    simp only [decodeFields]
    rw [if_neg (not_or.mpr ⟨hkv.1, hkv.2⟩)]
    by_cases hport : k = "host_port" ∨ k = "HostPort"
    · rw [if_pos hport]
      cases portAcc with
      | some _ => exact ⟨_, rfl⟩
      | none => exact ih (some v) (fun kv2 hm => h kv2 (List.mem_cons_of_mem _ hm))
    · rw [if_neg hport]
      exact ih portAcc (fun kv2 hm => h kv2 (List.mem_cons_of_mem _ hm))

theorem decodeFields_missing_port :
    ∀ (fields : List (String × String)) (ipAcc : Option String),
      (∀ kv ∈ fields, kv.1 ≠ "host_port" ∧ kv.1 ≠ "HostPort") →
      ∃ msg, decodeFields fields ipAcc none = .error msg := by
  intro fields
  induction fields with
  | nil =>
    intro ipAcc _
    cases ipAcc with
    | some _ => exact ⟨_, rfl⟩
    | none => exact ⟨_, rfl⟩
  | cons kv rest ih =>
    intro ipAcc h
    obtain ⟨k, v⟩ := kv
    have hkv := h (k, v) (by simp)
    simp only [decodeFields]
    by_cases hip : k = "host_ip" ∨ k = "HostIp"
    · rw [if_pos hip]
      cases ipAcc with
      | some _ => exact ⟨_, rfl⟩
      | none => exact ih (some v) (fun kv2 hm => h kv2 (List.mem_cons_of_mem _ hm))
    · rw [if_neg hip, if_neg (not_or.mpr ⟨hkv.1, hkv.2⟩)]
      exact ih ipAcc (fun kv2 hm => h kv2 (List.mem_cons_of_mem _ hm))

theorem parseU16_le (s : String) (n : Nat) (h : parseU16 s = some n) : n ≤ 65535 := by
  simp only [parseU16] at h
  split at h
  · exact absurd h (by simp)
  · split at h
    · split at h
      · injection h with h2
        subst h2
        assumption
      · exact absurd h (by simp)
    · exact absurd h (by simp)

/-!
The claims.
-/

/-- C1: for a probe that never succeeds, both readiness loops (the
container-status loop of start_container and the connection loop of
TestPostgres::new) invoke the probe exactly 10 times, sleep 1,2,…,9
seconds between consecutive attempts with no sleep after the 10th
attempt, and return a failure; for a probe first succeeding at
attempt k ≤ 10, exactly k invocations occur and no further delay is
incurred. -/
theorem C1_readiness_attempt_schedule (status : Nat → String) (image : String)
    (connect : Nat → ConnectOutcome) (errOf : Nat → String) (k : Nat)
    (closeErr : Option String) :
    ((∀ i, 1 ≤ i → i ≤ 10 → rustTrim (status i) ≠ "running") →
      statusLoop status image =
        LoopTrace.mk 10 (List.range' 1 9) (.error (statusErrMsg image))) ∧
    (1 ≤ k → k ≤ 10 → rustTrim (status k) = "running" →
      (∀ j, 1 ≤ j → j < k → rustTrim (status j) ≠ "running") →
      (statusLoop status image).invocations = k ∧
        (statusLoop status image).sleeps = List.range' 1 (k - 1)) ∧
    ((∀ i, 1 ≤ i → i ≤ 10 → connect i = .err (errOf i)) →
      connectLoop connect =
        LoopTrace.mk 10 (List.range' 1 9) (.error (errOf 10))) ∧
    (1 ≤ k → k ≤ 10 → connect k = .ok closeErr →
      (∀ j, 1 ≤ j → j < k → ∃ e, connect j = .err e) →
      (connectLoop connect).invocations = k ∧
        (connectLoop connect).sleeps = List.range' 1 (k - 1)) := by
  refine ⟨?_, ?_, ?_, ?_⟩
  · exact statusLoop_never status image
  · intro hk1 hk10 hrun hbef
    rw [statusLoop_success status image k hk1 hk10 hrun hbef]
    exact ⟨rfl, rfl⟩
  · exact connectLoop_never connect errOf
  · intro hk1 hk10 hconn hbef
    rw [connectLoop_success connect k closeErr hk1 hk10 hconn hbef]
    exact ⟨rfl, rfl⟩

/-- Concrete instantiations of C1_readiness_attempt_schedule: a
status probe that never observes "running", one that observes it on
attempt 1, a connection probe that always fails and one succeeding on
attempt 1. -/
theorem C1_readiness_attempt_schedule_witness :
    statusLoop (fun _ => "created") "postgres:14-alpine" =
      LoopTrace.mk 10 (List.range' 1 9)
        (.error (statusErrMsg "postgres:14-alpine")) ∧
    (statusLoop (fun _ => "running") "postgres:14-alpine").invocations = 1 ∧
    connectLoop (fun _ => .err "connection refused") =
      LoopTrace.mk 10 (List.range' 1 9) (.error "connection refused") ∧
    (connectLoop (fun _ => .ok none)).invocations = 1 := by
  refine ⟨?_, ?_, ?_, ?_⟩
  · exact (C1_readiness_attempt_schedule (fun _ => "created") "postgres:14-alpine"
      (fun _ => .err "e") (fun _ => "e") 1 none).1 (fun i _ _ => by decide)
  · exact ((C1_readiness_attempt_schedule (fun _ => "running") "postgres:14-alpine"
      (fun _ => .err "e") (fun _ => "e") 1 none).2.1 (by omega) (by omega) (by decide)
      (fun j hj1 hj2 => absurd hj2 (by omega))).1
  · exact (C1_readiness_attempt_schedule (fun _ => "created") "postgres:14-alpine"
      (fun _ => .err "connection refused") (fun _ => "connection refused") 1
      none).2.2.1 (fun i _ _ => rfl)
  · exact ((C1_readiness_attempt_schedule (fun _ => "created") "postgres:14-alpine"
      (fun _ => .ok none) (fun _ => "e") 1 none).2.2.2 (by omega) (by omega) rfl
      (fun j hj1 hj2 => absurd hj2 (by omega))).1

/-- C2: when the container was launched (start_container returned Ok)
but the administrative connection probe fails on all 10 attempts,
TestPostgres::new returns a failure and the fixture's container is
torn down — stop_container invoked through Drop — exactly once. -/
theorem C2_failed_provisioning_teardown (c : Container)
    (connect : Nat → ConnectOutcome) (errOf : Nat → String)
    (adminConnect createDb poolConnect migratorNew migratorRun : Except String Unit)
    (user password dbname : String)
    (h : ∀ i, 1 ≤ i → i ≤ 10 → connect i = .err (errOf i)) :
    testPostgresNew (.ok c) connect adminConnect createDb poolConnect migratorNew
      migratorRun user password dbname = NewResult.mk (.err (errOf 10)) 1 := by
  have hl : (connectLoop connect).result = .error (errOf 10) := by
    rw [connectLoop_never connect errOf h]
  simp [testPostgresNew, hl]

/-- Concrete instantiation of C2_failed_provisioning_teardown. -/
theorem C2_failed_provisioning_teardown_witness :
    testPostgresNew (.ok (Container.mk "0123456789ab" "0.0.0.0" 5432))
      (fun _ => .err "connection refused") (.ok ()) (.ok ()) (.ok ()) (.ok ())
      (.ok ()) "u" "p" "d" = NewResult.mk (.err "connection refused") 1 :=
  C2_failed_provisioning_teardown (Container.mk "0123456789ab" "0.0.0.0" 5432)
    (fun _ => .err "connection refused") (fun _ => "connection refused")
    (.ok ()) (.ok ()) (.ok ()) (.ok ()) (.ok ()) "u" "p" "d" (fun _ _ _ => rfl)

/-- C3 counterexample: on an empty binding array the code does not
return a resolution-failure error value to the caller; it panics
through assert! (lib.rs lines 149-152). -/
theorem C3_empty_bindings_counterexample :
    extract_ip_and_port (CmdOutput.mk true "[]" "") "dfd60e4ef0c0" =
      .panic "The container[dfd60e4ef0c0] cannnot find NetworkSettings.Ports" := rfl

/-- C3 amended: for every container identifier and inspect output
that succeeds and deserializes to an empty binding list, endpoint
resolution aborts with the assert! panic naming the container; no
endpoint is produced and no error value is returned to the caller. -/
theorem C3_empty_bindings_panic (out : CmdOutput) (id : String)
    (h1 : out.success = true)
    (h2 : deserializeSettings (prepareStdout out.stdout) = .ok []) :
    extract_ip_and_port out id =
      .panic ("The container[" ++ id ++ "] cannnot find NetworkSettings.Ports") := by
  simp [extract_ip_and_port, h1, h2, settingsFromList]

/-- Concrete instantiation of C3_empty_bindings_panic. -/
theorem C3_empty_bindings_panic_witness :
    extract_ip_and_port (CmdOutput.mk true "'[]'" "") "cid" =
      .panic ("The container[" ++ "cid" ++ "] cannnot find NetworkSettings.Ports") :=
  C3_empty_bindings_panic (CmdOutput.mk true "'[]'" "") "cid" rfl rfl

/-- C4 counterexample: a successful start_container run whose first
binding reports an empty host IP and host port 0 returns a Container
with an empty host and port 0, refuting the claimed non-empty host
and port in the interval (0, 65535]. -/
theorem C4_success_counterexample :
    start_container (CmdOutput.mk true "0123456789abcdef\n" "")
      (CmdOutput.mk true "[\x7b\"HostIp\":\"\",\"HostPort\":\"0\"\x7d]" "")
      (fun _ => "running") "postgres:14-alpine" =
      .ok (Container.mk "0123456789ab" "" 0) := rfl

/-- C4 amended: every successful start_container returns as
identifier the first 12 characters of the run stdout — non-empty and
exactly 12 characters — while host and port are exactly the resolved
binding's host-IP string and its host-port parsed as a u16 (hence at
most 65535); the host may be empty and the port may be 0 when the
runtime reports such values. -/
theorem C4_success_shape (runOut inspectOut : CmdOutput) (status : Nat → String)
    (image : String) (c : Container)
    (h : start_container runOut inspectOut status image = .ok c) :
    c.id = String.mk (runOut.stdout.data.take 12) ∧ c.id.length = 12 ∧
    c.id ≠ "" ∧ c.port ≤ 65535 ∧
    ∃ ns, extract_ip_and_port inspectOut c.id = .ok ns ∧ c.host = ns.host_ip ∧
      parseU16 ns.host_port = some c.port := by
  simp only [start_container] at h
  split at h
  · exact RsOutcome.noConfusion h
  · split at h
    · exact RsOutcome.noConfusion h
    · rename_i hsucc hlen
      split at h
      · exact RsOutcome.noConfusion h
      · exact RsOutcome.noConfusion h
      · rename_i ns heq
        split at h
        · exact RsOutcome.noConfusion h
        · split at h
          · exact RsOutcome.noConfusion h
          · rename_i p heqp
            injection h with h2
            subst h2
            have hlen12 : (String.mk (runOut.stdout.data.take 12)).length = 12 := by
              show (runOut.stdout.data.take 12).length = 12
              rw [List.length_take]
              omega
            refine ⟨rfl, hlen12, ?_, parseU16_le _ _ heqp, ns, heq, rfl, heqp⟩
            intro hemp
            have hemp' : String.mk (runOut.stdout.data.take 12) = "" := hemp
            rw [hemp'] at hlen12
            simp at hlen12

/-- Concrete instantiation of C4_success_shape on a successful run. -/
theorem C4_success_shape_witness :
    (Container.mk "0123456789ab" "0.0.0.0" 5432).id =
      String.mk (("0123456789abcdef\n" : String).data.take 12) ∧
    (Container.mk "0123456789ab" "0.0.0.0" 5432).id.length = 12 ∧
    (Container.mk "0123456789ab" "0.0.0.0" 5432).id ≠ "" ∧
    (Container.mk "0123456789ab" "0.0.0.0" 5432).port ≤ 65535 ∧
    ∃ ns, extract_ip_and_port
        (CmdOutput.mk true "[\x7b\"HostIp\":\"0.0.0.0\",\"HostPort\":\"5432\"\x7d]" "")
        (Container.mk "0123456789ab" "0.0.0.0" 5432).id = .ok ns ∧
      (Container.mk "0123456789ab" "0.0.0.0" 5432).host = ns.host_ip ∧
      parseU16 ns.host_port = some (Container.mk "0123456789ab" "0.0.0.0" 5432).port :=
  C4_success_shape (CmdOutput.mk true "0123456789abcdef\n" "")
    (CmdOutput.mk true "[\x7b\"HostIp\":\"0.0.0.0\",\"HostPort\":\"5432\"\x7d]" "")
    (fun _ => "running") "postgres:14-alpine"
    (Container.mk "0123456789ab" "0.0.0.0" 5432) rfl

/-- C5 counterexample: two runs of the container-status loop that
never observe "running" but observe different last statuses produce
identical timeout errors, so that error cannot carry the last
observed status; the claim fails for the container-status loop. -/
theorem C5_timeout_error_counterexample :
    (statusLoop (fun _ => "created") "postgres:14-alpine").result =
      (statusLoop (fun _ => "exited") "postgres:14-alpine").result ∧
    ("created" : String) ≠ "exited" := ⟨rfl, by decide⟩

/-- C5 amended: when the database-connection loop exhausts its
budget, the returned error is the last observed connection error;
when the container-status loop exhausts its budget, the returned
error is the fixed message naming the image, independent of the
observed statuses. -/
theorem C5_timeout_error_payload (status : Nat → String) (image : String)
    (connect : Nat → ConnectOutcome) (errOf : Nat → String) :
    ((∀ i, 1 ≤ i → i ≤ 10 → connect i = .err (errOf i)) →
      (connectLoop connect).result = .error (errOf 10)) ∧
    ((∀ i, 1 ≤ i → i ≤ 10 → rustTrim (status i) ≠ "running") →
      (statusLoop status image).result = .error (statusErrMsg image)) := by
  constructor
  · intro h
    rw [connectLoop_never connect errOf h]
  · intro h
    rw [statusLoop_never status image h]

/-- Concrete instantiation of C5_timeout_error_payload. -/
theorem C5_timeout_error_payload_witness :
    (connectLoop (fun _ => .err "connection refused")).result =
      .error "connection refused" ∧
    (statusLoop (fun _ => "created") "postgres:14-alpine").result =
      .error (statusErrMsg "postgres:14-alpine") :=
  ⟨(C5_timeout_error_payload (fun _ => "created") "postgres:14-alpine"
      (fun _ => .err "connection refused") (fun _ => "connection refused")).1
      (fun i _ _ => rfl),
   (C5_timeout_error_payload (fun _ => "created") "postgres:14-alpine"
      (fun _ => .err "connection refused") (fun _ => "connection refused")).2
      (fun i _ _ => by decide)⟩

/-- C6 counterexample: a binding object missing the host-IP field
makes deserialization fail, and extract_ip_and_port returns that
error to the caller instead of defaulting the field to the empty
string. -/
theorem C6_missing_field_counterexample :
    extract_ip_and_port
        (CmdOutput.mk true "[\x7b\"HostPort\":\"5432\"\x7d]" "") "cid" =
      .err "missing field host_ip" ∧
    extract_ip_and_port
        (CmdOutput.mk true "[\x7b\"HostPort\":\"5432\"\x7d]" "") "cid" ≠
      .ok (NetworkSettings.mk "" "5432") := ⟨rfl, by decide⟩

/-- C6 amended: a binding object with no member for the host-IP field
(or none for the host-port field) fails to deserialize — the derived
impl has no field defaults — and endpoint resolution returns the
deserialization error to the caller as a hard failure. -/
theorem C6_missing_field_hard_error (fields : List (String × String))
    (out : CmdOutput) (id : String) (e : String) :
    ((∀ kv ∈ fields, kv.1 ≠ "host_ip" ∧ kv.1 ≠ "HostIp") →
      ∃ msg, decodeNetworkSettings fields = .error msg) ∧
    ((∀ kv ∈ fields, kv.1 ≠ "host_port" ∧ kv.1 ≠ "HostPort") →
      ∃ msg, decodeNetworkSettings fields = .error msg) ∧
    (out.success = true →
      deserializeSettings (prepareStdout out.stdout) = .error e →
      extract_ip_and_port out id = .err e) := by
  refine ⟨?_, ?_, ?_⟩
  · intro h
    exact decodeFields_missing_ip fields none h
  · intro h
    exact decodeFields_missing_port fields none h
  · intro h1 h2
    simp [extract_ip_and_port, h1, h2]

/-- Concrete instantiation of C6_missing_field_hard_error. -/
theorem C6_missing_field_hard_error_witness :
    (∃ msg, decodeNetworkSettings [("HostPort", "5432")] = .error msg) ∧
    extract_ip_and_port
        (CmdOutput.mk true "'[\x7b\"HostPort\":\"5432\"\x7d]'" "") "cid" =
      .err "missing field host_ip" :=
  ⟨(C6_missing_field_hard_error [("HostPort", "5432")]
      (CmdOutput.mk true "'[\x7b\"HostPort\":\"5432\"\x7d]'" "") "cid"
      "missing field host_ip").1 (by decide),
   (C6_missing_field_hard_error [("HostPort", "5432")]
      (CmdOutput.mk true "'[\x7b\"HostPort\":\"5432\"\x7d]'" "") "cid"
      "missing field host_ip").2.2 rfl rfl⟩

/-- C7: stop_container runs docker stop first and docker rm -v (the
volume-cleanup removal) second; when stop exits non-zero the result
is an error carrying stop's stderr verbatim and the removal is not
attempted; the removal is attempted only when stop succeeded. -/
theorem C7_teardown_sequence (stopOut rmOut : CmdOutput) (id : String) :
    (stopOut.success = false →
      stop_container stopOut rmOut = StopTrace.mk (.error stopOut.stderr) false) ∧
    (stopOut.success = true → (stop_container stopOut rmOut).rmInvoked = true) ∧
    (stopOut.success = true → rmOut.success = false →
      stop_container stopOut rmOut = StopTrace.mk (.error rmOut.stderr) true) ∧
    (stopOut.success = true → rmOut.success = true →
      stop_container stopOut rmOut = StopTrace.mk (.ok ()) true) ∧
    ((stop_container stopOut rmOut).rmInvoked = true → stopOut.success = true) ∧
    stopCmdArgs id = ["stop", id] ∧ rmCmdArgs id = ["rm", id, "-v"] := by
  refine ⟨?_, ?_, ?_, ?_, ?_, rfl, rfl⟩
  · intro h
    simp [stop_container, h]
  · intro h
    cases hr : rmOut.success
    · simp [stop_container, h, hr]
    · simp [stop_container, h, hr]
  · intro h hr
    simp [stop_container, h, hr]
  · intro h hr
    simp [stop_container, h, hr]
  · intro h
    by_contra hs
    have hs' : stopOut.success = false := by
      cases hq : stopOut.success
      · rfl
      · exact absurd hq hs
    simp [stop_container, hs'] at h

/-- Concrete instantiations of C7_teardown_sequence: a failing stop
(remove not attempted, stop's stderr verbatim), a successful stop
followed by a successful remove, a successful stop with remove
attempted but failing, and the removal argument vector. -/
theorem C7_teardown_sequence_witness :
    stop_container (CmdOutput.mk false "" "no such container")
        (CmdOutput.mk true "" "") =
      StopTrace.mk (.error "no such container") false ∧
    (stop_container (CmdOutput.mk true "" "")
      (CmdOutput.mk true "" "")).rmInvoked = true ∧
    stop_container (CmdOutput.mk true "" "") (CmdOutput.mk true "" "") =
      StopTrace.mk (.ok ()) true ∧
    stop_container (CmdOutput.mk true "" "")
        (CmdOutput.mk false "" "rm failed") =
      StopTrace.mk (.error "rm failed") true ∧
    rmCmdArgs "dfd60e4ef0c0" = ["rm", "dfd60e4ef0c0", "-v"] :=
  ⟨(C7_teardown_sequence (CmdOutput.mk false "" "no such container")
      (CmdOutput.mk true "" "") "dfd60e4ef0c0").1 rfl,
   (C7_teardown_sequence (CmdOutput.mk true "" "")
      (CmdOutput.mk true "" "") "dfd60e4ef0c0").2.1 rfl,
   (C7_teardown_sequence (CmdOutput.mk true "" "")
      (CmdOutput.mk true "" "") "dfd60e4ef0c0").2.2.2.1 rfl rfl,
   (C7_teardown_sequence (CmdOutput.mk true "" "")
      (CmdOutput.mk false "" "rm failed") "dfd60e4ef0c0").2.2.1 rfl rfl,
   (C7_teardown_sequence (CmdOutput.mk true "" "")
      (CmdOutput.mk true "" "") "dfd60e4ef0c0").2.2.2.2.2.2⟩

/-- C8: server_url omits the database name (it is invariant in the
dbname field) and embeds the password as user:password@host:port
exactly when the password is nonempty, with no password segment when
it is empty; url equals server_url with "/" and the database name
appended. -/
theorem C8_url_derivations (t : TestPostgres) :
    (t.password = "" →
      t.server_url = "postgres://" ++ t.user ++ "@" ++ t.host ++ ":" ++
        toString t.port) ∧
    (t.password ≠ "" →
      t.server_url = "postgres://" ++ t.user ++ ":" ++ t.password ++ "@" ++
        t.host ++ ":" ++ toString t.port) ∧
    t.url = t.server_url ++ "/" ++ t.dbname ∧
    (∀ d, (TestPostgres.mk t.host t.port t.user t.password d
      t.container_id).server_url = t.server_url) := by
  refine ⟨?_, ?_, rfl, ?_⟩
  · intro h
    simp [TestPostgres.server_url, h]
  · intro h
    simp [TestPostgres.server_url, h]
  · intro d
    simp [TestPostgres.server_url]

/-- Concrete instantiations of C8_url_derivations with an empty and
a nonempty password. -/
theorem C8_url_derivations_witness :
    (TestPostgres.mk "0.0.0.0" 5432 "u" "" "d" "c").server_url =
      "postgres://" ++ "u" ++ "@" ++ "0.0.0.0" ++ ":" ++ toString 5432 ∧
    (TestPostgres.mk "0.0.0.0" 5432 "u" "pw" "d" "c").server_url =
      "postgres://" ++ "u" ++ ":" ++ "pw" ++ "@" ++ "0.0.0.0" ++ ":" ++
        toString 5432 :=
  ⟨(C8_url_derivations (TestPostgres.mk "0.0.0.0" 5432 "u" "" "d" "c")).1 rfl,
   (C8_url_derivations (TestPostgres.mk "0.0.0.0" 5432 "u" "pw" "d" "c")).2.1
     (by decide)⟩

/-- C9: the raw mapping output parses to the binding with host
0.0.0.0 and port 5432 (the port string parsing to the number 5432),
and for every binding list with more than one element, the first
element in the runtime's returned order is the one used. -/
theorem C9_binding_parse_first :
    deserializeSettings "[\x7b\"HostIp\":\"0.0.0.0\",\"HostPort\":\"5432\"\x7d]" =
      .ok [NetworkSettings.mk "0.0.0.0" "5432"] ∧
    extract_ip_and_port
      (CmdOutput.mk true
        "'[\x7b\"HostIp\":\"0.0.0.0\",\"HostPort\":\"5432\"\x7d]'\n" "")
      "dfd60e4ef0c0" = .ok (NetworkSettings.mk "0.0.0.0" "5432") ∧
    parseU16 "5432" = some 5432 ∧
    ∀ (id : String) (ns : NetworkSettings) (rest : List NetworkSettings),
      settingsFromList id (ns :: rest) = .ok ns := by
  refine ⟨rfl, rfl, by decide, ?_⟩
  intro id ns rest
  cases ns
  simp [settingsFromList]

/-- C10: for some runtime port-mapping output whose host-port string
is not a u16 decimal (here the empty string) start_container panics
on the port conversion instead of returning an error value. -/
theorem C10_port_unwrap_panic :
    start_container (CmdOutput.mk true "0123456789abcdef\n" "")
      (CmdOutput.mk true "[\x7b\"HostIp\":\"0.0.0.0\",\"HostPort\":\"\"\x7d]" "")
      (fun _ => "running") "postgres:14-alpine" =
      .panic "called Result::unwrap on an Err value: ParseIntError" := rfl
